import Mathlib

/-!
Verification of the retail-analytics core of the customer-shopping repository:
the dataset loader/cleaner (`src/customer_data_loader.py`), the keyword
query translators (`app/core/customer_ai_agent.py` and
`streamlit/streamlit_app_simple.py`), the chart-type selection passes, and
the narrative generator (`src/narrative_generator.py`).

Machine integers do not occur (Python ints are unbounded); money amounts
(`price`, `total_amount`) are modelled as exact rationals, abstracting the
IEEE-754 doubles of pandas.  `pd.cut` with its default `right=True` is
embedded as left-open/right-closed interval dispatch; `pd.to_datetime(...,
errors='coerce')` is represented by an `Option` date field on the raw row.
-/

namespace CustomerShopping

/-- Lowercase one character, as Python `str.lower` does on ASCII letters. -/
def lowerChar (c : Char) : Char :=
  if 'A' ≤ c ∧ c ≤ 'Z' then Char.ofNat (c.toNat + 32) else c

/-- Character list of `s.lower()`. -/
def strLower (s : String) : List Char := s.data.map lowerChar

/-- Boolean list-prefix test used by the substring search. -/
def isPrefixOfL : List Char → List Char → Bool
  | [], _ => true
  | _ :: _, [] => false
  | a :: as, b :: bs => a == b && isPrefixOfL as bs

/-- Boolean substring containment: `containsSub pat s` holds when `pat`
occurs contiguously in `s`. -/
def containsSub (pat : List Char) : List Char → Bool
  | [] => isPrefixOfL pat []
  | c :: t => isPrefixOfL pat (c :: t) || containsSub pat t

/-- Embedding of the Python membership test `kw in query.lower()` used by
every keyword rule of the translators (keywords are lowercase literals). -/
def hasTok (query kw : String) : Bool := containsSub kw.data (strLower query)

/-- One raw CSV record with the required columns of the input file.
`invoice_date` holds the outcome of
`pd.to_datetime(invoice_date, format='%d/%m/%Y', errors='coerce')`:
`none` is NaT (an unparseable date), `some d` an abstract day number. -/
structure RawRow where
  invoice_no : String
  customer_id : String
  gender : String
  age : Int
  category : String
  quantity : Int
  price : ℚ
  payment_method : String
  invoice_date : Option Int
  shopping_mall : String
deriving DecidableEq

/-- Embedding of
`pd.cut(age, bins=[0, 25, 35, 45, 55, 100], labels=['18-25','26-35','36-45','46-55','55+'])`:
`pd.cut` defaults to `right=True`, so each bin is left-open/right-closed;
values outside (0, 100] get NaN (`none`). -/
def ageBucket (age : Int) : Option String :=
  if 0 < age ∧ age ≤ 25 then some "18-25"
  else if 25 < age ∧ age ≤ 35 then some "26-35"
  else if 35 < age ∧ age ≤ 45 then some "36-45"
  else if 45 < age ∧ age ≤ 55 then some "46-55"
  else if 55 < age ∧ age ≤ 100 then some "55+"
  else none

/-- Embedding of
`pd.cut(total_amount, bins=[0, 100, 500, 1000, 5000, inf], labels=[...])`
(`clean_data`): left-open/right-closed bins, NaN (`none`) for `t ≤ 0`. -/
def spendBucket (t : ℚ) : Option String :=
  if 0 < t ∧ t ≤ 100 then some "Low (<$100)"
  else if 100 < t ∧ t ≤ 500 then some "Medium ($100-$500)"
  else if 500 < t ∧ t ≤ 1000 then some "High ($500-$1000)"
  else if 1000 < t ∧ t ≤ 5000 then some "Very High ($1000-$5000)"
  else if 5000 < t then some "Premium ($5000+)"
  else none

/-- Embedding of
`pd.cut(total_amount, bins=[0, 1000, 5000, 10000, inf], labels=['Budget','Regular','Premium','VIP'])`
used by `get_customer_segments` and by the customer-segment branch of
`_generate_pandas_code`: left-open/right-closed bins, NaN for `t ≤ 0`. -/
def segBucket (t : ℚ) : Option String :=
  if 0 < t ∧ t ≤ 1000 then some "Budget"
  else if 1000 < t ∧ t ≤ 5000 then some "Regular"
  else if 5000 < t ∧ t ≤ 10000 then some "Premium"
  else if 10000 < t then some "VIP"
  else none

/-- One row of the cleaned table: the raw fields plus the derived columns
that survive `dropna()` (only rows where every derived column is non-null
are kept, so the buckets are plain strings here). -/
structure CleanRow where
  row : RawRow
  total_amount : ℚ
  age_group : String
  spending_category : String
deriving DecidableEq

/-- Per-row effect of `clean_data`: derive `total_amount = quantity * price`,
`age_group`, `spending_category`; the row is dropped (`none`) by the final
`dropna()` when the coerced date or either bucket is null. -/
def cleanRow (r : RawRow) : Option CleanRow :=
  match r.invoice_date, ageBucket r.age, spendBucket ((r.quantity : ℚ) * r.price) with
  | some _, some ag, some sc =>
      some { row := r, total_amount := (r.quantity : ℚ) * r.price,
             age_group := ag, spending_category := sc }
  | _, _, _ => none

/-- Embedding of `CustomerShoppingDataLoader.clean_data`: derive the
computed columns row by row, then drop every row with a missing value. -/
def clean_data (t : List RawRow) : List CleanRow := t.filterMap cleanRow

/-- Embedding of `CustomerShoppingDataLoader.load_data`.  The argument is
the outcome of `pd.read_csv(self.file_path)` (`Except.error` is a raised
exception, e.g. `"FileNotFoundError"` for a missing file).  The `try`
blocks catch `FileNotFoundError` and every other exception and return
`None`, so the function itself never raises. -/
def load_data (read : Except String (List RawRow)) :
    Except String (Option (List RawRow)) :=
  match read with
  | Except.ok t => Except.ok (some t)
  | Except.error _ => Except.ok none

/-- Generic single-key group-by/sum over the cleaned table, as pandas
`df.groupby(key)[metric].sum().reset_index()` performs it for an
object-dtype (string) key: one output row per distinct key value present
in the input, paired with the sum of the metric over that group.  (Pandas
additionally sorts the group keys; the claims here are order-insensitive,
so keys are listed in order of first appearance.) -/
def aggregateSumBy (key : CleanRow → String) (val : CleanRow → ℚ)
    (t : List CleanRow) : List (String × ℚ) :=
  ((t.map key).dedup).map
    (fun k => (k, ((t.filter (fun c => key c == k)).map val).sum))

/-- Category labels produced by the `pd.cut` of `clean_data`; these are the
categories of the Categorical dtype of the `age_group` column. -/
def ageGroupLabels : List String := ["18-25", "26-35", "36-45", "46-55", "55+"]

/-- Number of occurrences of `s` in `l` (pandas `value_counts` of one value). -/
def countOf (l : List String) (s : String) : Nat :=
  (l.filter (fun x => x == s)).length

/-- Minimum of a list of strings in lexicographic order, `none` on `[]`. -/
def listMinStr (l : List String) : Option String :=
  l.foldl
    (fun acc s =>
      match acc with
      | none => some s
      | some m => some (if s < m then s else m))
    none

/-- Embedding of `x.mode().iloc[0]` guarded by `len(x.mode()) > 0`:
`Series.mode` returns the most frequent values sorted ascending, so
`iloc[0]` is the lexicographically smallest value of maximal count;
`none` when the series is empty. -/
def modeFirst (l : List String) : Option String :=
  let mx := ((l.dedup).map (countOf l)).foldl Nat.max 0
  listMinStr ((l.dedup).filter (fun s => countOf l s == mx))

/-- Aggregates computed per age group by `get_age_group_analysis`
(`total_amount` sum/mean/count, `quantity` sum/mean, `customer_id`
nunique, modal `category`).  Pandas `mean` of an empty group is NaN,
modelled `none`; the display-only `.round(2)` is not modelled. -/
structure AgeGroupStats where
  total_sum : ℚ
  total_mean : Option ℚ
  total_count : Nat
  quantity_sum : Int
  quantity_mean : Option ℚ
  customer_nunique : Nat
  top_category : String
deriving DecidableEq

/-- Aggregation of one group of cleaned rows, per the `.agg` dict of
`get_age_group_analysis`.  The `category` entry is the source lambda
`x.mode().iloc[0] if len(x.mode()) > 0 else 'Unknown'`. -/
def ageGroupStatsOf (g : List CleanRow) : AgeGroupStats :=
  { total_sum := (g.map CleanRow.total_amount).sum
    total_mean :=
      if g.length == 0 then none
      else some ((g.map CleanRow.total_amount).sum / (g.length : ℚ))
    total_count := g.length
    quantity_sum := (g.map (fun c => c.row.quantity)).sum
    quantity_mean :=
      if g.length == 0 then none
      else some (((g.map (fun c => c.row.quantity)).sum : ℚ) / (g.length : ℚ))
    customer_nunique := ((g.map (fun c => c.row.customer_id)).dedup).length
    top_category := (modeFirst (g.map (fun c => c.row.category))).getD "Unknown" }

/-- Embedding of `CustomerShoppingDataLoader.get_age_group_analysis`:
`cleaned_data.groupby('age_group').agg({...})`.  The `age_group` column is
the Categorical produced by `pd.cut`, and `groupby` defaults to
`observed=False` (pandas 1.x/2.x), so the result has one row for EVERY
category label of the dtype — including labels with no matching input
rows, whose group is empty. -/
def get_age_group_analysis (t : List CleanRow) : List (String × AgeGroupStats) :=
  ageGroupLabels.map
    (fun lab => (lab, ageGroupStatsOf (t.filter (fun c => c.age_group == lab))))

/-- One output row of `get_customer_segments`. -/
structure SegmentRow where
  customer_id : String
  total_amount : ℚ
  invoice_no_nunique : Nat
  category_nunique : Nat
  shopping_mall_nunique : Nat
  segment : Option String
deriving DecidableEq

/-- Embedding of `CustomerShoppingDataLoader.get_customer_segments`:
group the cleaned table by `customer_id` (object dtype: one row per
distinct id present), aggregate `total_amount` by sum and
`invoice_no`/`category`/`shopping_mall` by nunique, then label each
customer with `pd.cut(total_amount, bins=[0,1000,5000,10000,inf],
labels=['Budget','Regular','Premium','VIP'])` (see `segBucket`). -/
def get_customer_segments (t : List CleanRow) : List SegmentRow :=
  ((t.map (fun c => c.row.customer_id)).dedup).map
    (fun cid =>
      let g := t.filter (fun c => c.row.customer_id == cid)
      let total := (g.map CleanRow.total_amount).sum
      { customer_id := cid
        total_amount := total
        invoice_no_nunique := ((g.map (fun c => c.row.invoice_no)).dedup).length
        category_nunique := ((g.map (fun c => c.row.category)).dedup).length
        shopping_mall_nunique := ((g.map (fun c => c.row.shopping_mall)).dedup).length
        segment := segBucket total })

/-- Reduction applied by a generated pandas expression: `.sum()`, `.mean()`
or `.size()` (row count). -/
inductive Red
  | sum
  | mean
  | size
deriving DecidableEq

/-- Structured form of one generated group-by expression
`df.groupby(groupBy)[metric].red().reset_index()`; `metric = none` is the
`.size().reset_index(name='count')` shape, `sortDesc` records a trailing
`.sort_values('count', ascending=False)`. -/
structure AggSpec where
  groupBy : List String
  metric : Option String
  red : Red
  sortDesc : Bool
deriving DecidableEq

/-- Structured form of the string of pandas code returned by the
translators: a single group-by aggregation, the multi-line
customer-segmentation program, or a summary-statistics dict (whose keys
are recorded). -/
inductive PandasProgram
  | agg (spec : AggSpec)
  | segmentCount
  | summaryDict (keys : List String)
deriving DecidableEq

/-- Shorthand for `df.groupby(cols)[metric].sum().reset_index()`. -/
def sumBy (cols : List String) (metric : String) : PandasProgram :=
  PandasProgram.agg { groupBy := cols, metric := some metric, red := Red.sum, sortDesc := false }

/-- Shorthand for `df.groupby(cols)[metric].mean().reset_index()`. -/
def meanBy (cols : List String) (metric : String) : PandasProgram :=
  PandasProgram.agg { groupBy := cols, metric := some metric, red := Red.mean, sortDesc := false }

/-- Shorthand for `df.groupby(cols).size().reset_index(name='count')`. -/
def sizeBy (cols : List String) : PandasProgram :=
  PandasProgram.agg { groupBy := cols, metric := none, red := Red.size, sortDesc := false }

/-- Shorthand for `df.groupby(cols).size().reset_index(name='count').sort_values('count', ascending=False)`. -/
def sizeSortedBy (cols : List String) : PandasProgram :=
  PandasProgram.agg { groupBy := cols, metric := none, red := Red.size, sortDesc := true }

/-- Embedding of `CustomerDataAnalysisTool._generate_pandas_code`
(`app/core/customer_ai_agent.py`): the ordered, case-insensitive keyword
rule chain, mirrored branch for branch. -/
def genPandasCode (q : String) : PandasProgram :=
  if hasTok q "revenue" || hasTok q "sales" then
    if hasTok q "category" then sumBy ["category"] "total_amount"
    else if hasTok q "mall" || hasTok q "shopping" then sumBy ["shopping_mall"] "total_amount"
    else if hasTok q "gender" then sumBy ["gender"] "total_amount"
    else if hasTok q "age" then sumBy ["age_group"] "total_amount"
    else sumBy ["invoice_date"] "total_amount"
  else if hasTok q "category" then
    if hasTok q "popular" || hasTok q "most" then sizeSortedBy ["category"]
    else sumBy ["category"] "total_amount"
  else if hasTok q "mall" || hasTok q "shopping" then
    if hasTok q "popular" || hasTok q "most" then sizeSortedBy ["shopping_mall"]
    else sumBy ["shopping_mall"] "total_amount"
  else if hasTok q "gender" then
    if hasTok q "spending" then sumBy ["gender"] "total_amount"
    else if hasTok q "preference" || hasTok q "category" then sumBy ["gender", "category"] "total_amount"
    else sizeBy ["gender"]
  else if hasTok q "age" then
    if hasTok q "group" then sumBy ["age_group"] "total_amount"
    else if hasTok q "spending" then meanBy ["age_group"] "total_amount"
    else sizeBy ["age_group"]
  else if hasTok q "payment" then
    if hasTok q "method" then sumBy ["payment_method"] "total_amount"
    else sizeBy ["payment_method"]
  else if hasTok q "customer" then
    if hasTok q "segment" then PandasProgram.segmentCount
    else sumBy ["customer_id"] "total_amount"
  else if hasTok q "trend" || hasTok q "time" then
    if hasTok q "daily" then sumBy ["invoice_date"] "total_amount"
    else if hasTok q "monthly" then sumBy ["year", "month"] "total_amount"
    else sumBy ["invoice_date"] "total_amount"
  else if hasTok q "quantity" then
    if hasTok q "category" then sumBy ["category"] "quantity"
    else if hasTok q "mall" then sumBy ["shopping_mall"] "quantity"
    else sumBy ["invoice_date"] "quantity"
  else if hasTok q "summary" || hasTok q "overview" then
    PandasProgram.summaryDict
      ["total_revenue", "total_transactions", "total_customers", "total_invoices",
       "avg_transaction_value", "total_quantity", "categories", "malls"]
  else sumBy ["category"] "total_amount"

/-- Embedding of `SimpleAgenticWorkflow.translate_query_to_pandas`
(`streamlit/streamlit_app_simple.py`), mirrored branch for branch.  Note
its revenue/sales family ends in `else: groupby('category')`, unlike the
agent translator whose final fallback inside that family is
`groupby('invoice_date')`. -/
def translate_query_to_pandas (q : String) : PandasProgram :=
  if hasTok q "revenue" || hasTok q "sales" then
    if hasTok q "trend" && hasTok q "category" then sumBy ["invoice_date", "category"] "total_amount"
    else if hasTok q "category" then sumBy ["category"] "total_amount"
    else if hasTok q "mall" || hasTok q "shopping" then sumBy ["shopping_mall"] "total_amount"
    else if hasTok q "gender" then sumBy ["gender"] "total_amount"
    else if hasTok q "age" then sumBy ["age_group"] "total_amount"
    else if hasTok q "trend" then sumBy ["invoice_date"] "total_amount"
    else sumBy ["category"] "total_amount"
  else if hasTok q "category" then
    if hasTok q "popular" || hasTok q "most" then sizeSortedBy ["category"]
    else sumBy ["category"] "total_amount"
  else if hasTok q "mall" || hasTok q "shopping" then
    if hasTok q "popular" || hasTok q "most" then sizeSortedBy ["shopping_mall"]
    else sumBy ["shopping_mall"] "total_amount"
  else if hasTok q "gender" then
    if hasTok q "spending" then sumBy ["gender"] "total_amount"
    else sizeBy ["gender"]
  else if hasTok q "age" then
    if hasTok q "spending" then sumBy ["age_group"] "total_amount"
    else sizeBy ["age_group"]
  else if hasTok q "payment" then sumBy ["payment_method"] "total_amount"
  else if hasTok q "summary" || hasTok q "overview" then
    PandasProgram.summaryDict ["total_revenue", "total_transactions", "total_customers"]
  else sumBy ["category"] "total_amount"

/-- Chart kinds produced by the visualization passes. -/
inductive ChartType
  | bar
  | line
  | pie
deriving DecidableEq

/-- Result of `SimpleAgenticWorkflow.generate_visualization`: the selected
chart type and whether a figure was actually created (`fig is not None`). -/
structure VizOut where
  chart : ChartType
  hasFig : Bool
deriving DecidableEq

/-- Embedding of `SimpleAgenticWorkflow.generate_visualization`
(`streamlit/streamlit_app_simple.py`).  `data` is `some n` when the query
result is a DataFrame with `n` columns and `none` when it is `None` or not
a DataFrame; in the latter case the source substitutes the default
two-column category-revenue table and a bar chart.  Every
figure-constructing branch requires at least two columns, otherwise the
figure is skipped (`fig = None`) with no error. -/
def generate_visualization (q : String) (data : Option Nat) : VizOut :=
  match data with
  | none => { chart := ChartType.bar, hasFig := true }
  | some n =>
      let ct :=
        if hasTok q "trend" then ChartType.line
        else if hasTok q "category" then ChartType.bar
        else if hasTok q "mall" || hasTok q "shopping" then ChartType.bar
        else if hasTok q "gender" then ChartType.bar
        else if hasTok q "age" then ChartType.bar
        else if hasTok q "distribution" || hasTok q "pie" then ChartType.pie
        else ChartType.bar
      { chart := ct, hasFig := decide (2 ≤ n) }

/-- Chart-type selection of
`CustomerShoppingAgent.generate_visualization_pipeline`
(`app/core/customer_ai_agent.py`), mirrored branch for branch. -/
def pipelineChartType (q : String) : ChartType :=
  if hasTok q "trend" then ChartType.line
  else if hasTok q "category" then ChartType.bar
  else if hasTok q "mall" || hasTok q "shopping" then ChartType.bar
  else if hasTok q "gender" then ChartType.bar
  else if hasTok q "age" then ChartType.bar
  else if hasTok q "distribution" || hasTok q "pie" then ChartType.pie
  else ChartType.bar

/-- Outcome of one call to `self.ai_provider.generate_text(...)`:
`Except.ok` the generated text, `Except.error` the message of the raised
exception (timeout, quota, network, ...). -/
abbrev ProviderResult := Except String String

/-- Message of the `AttributeError` CPython raises for
`None.generate_text(...)`, the call made when `self.ai_provider is None`. -/
def noneAttrErr : String := "'NoneType' object has no attribute 'generate_text'"

/-- Embedding of `NarrativeGenerator.generate_dataset_summary`.  The
`provider` argument is the outcome of the external call: `none` when
`self.ai_provider is None` (the call raises `AttributeError`, caught by
the `except` clause), `some r` the call's result.  The `except` branch
returns the f-string `"Error generating summary: {str(e)}"`. -/
def generate_dataset_summary (provider : Option ProviderResult) : String :=
  match provider with
  | none => "Error generating summary: " ++ noneAttrErr
  | some (Except.ok s) => s
  | some (Except.error e) => "Error generating summary: " ++ e

/-- Embedding of `NarrativeGenerator.generate_visualization_insights`
(same try/except shape as `generate_dataset_summary`). -/
def generate_visualization_insights (provider : Option ProviderResult) : String :=
  match provider with
  | none => "Error generating insights: " ++ noneAttrErr
  | some (Except.ok s) => s
  | some (Except.error e) => "Error generating insights: " ++ e

/-- Embedding of `NarrativeGenerator.generate_trend_analysis`. -/
def generate_trend_analysis (provider : Option ProviderResult) : String :=
  match provider with
  | none => "Error generating trend analysis: " ++ noneAttrErr
  | some (Except.ok s) => s
  | some (Except.error e) => "Error generating trend analysis: " ++ e

/-- Embedding of `NarrativeGenerator.generate_comparative_analysis`. -/
def generate_comparative_analysis (provider : Option ProviderResult) : String :=
  match provider with
  | none => "Error generating comparative analysis: " ++ noneAttrErr
  | some (Except.ok s) => s
  | some (Except.error e) => "Error generating comparative analysis: " ++ e

/-- Local fallback text of `NarrativeGenerator.generate_query_analysis`:
both the `ai_provider is None` branch and the `except` branch fill the
same f-string template, differing only in the fixed `tail1`/`tail2`
phrases; the indentation whitespace of the Python triple-quoted literal is
normalized to single newlines. -/
def queryAnalysisText (query execTime resultsSummary tail1 tail2 : String) : String :=
  "Query Analysis Summary:\n\nOriginal Query: \"" ++ query ++
  "\"\nExecution Time: " ++ execTime ++ " seconds\n\n" ++ resultsSummary ++
  "\n\nKey Insights:\n- The query was successfully processed in " ++ execTime ++
  " seconds\n- Results provide valuable insights into customer shopping patterns\n- Data analysis completed successfully " ++
  tail1 ++ "\n\nNote: " ++ tail2

/-- Embedding of `NarrativeGenerator.generate_query_analysis`: when
`ai_provider is None` it returns the local template (local-mode note);
when the provider call raises, the `except` branch returns the local
template with the API-limitations note, independent of the error. -/
def generate_query_analysis (provider : Option ProviderResult)
    (query execTime resultsSummary : String) : String :=
  match provider with
  | none =>
      queryAnalysisText query execTime resultsSummary "using local processing"
        "Using local analysis mode. The core data analysis functionality is fully operational."
  | some (Except.ok s) => s
  | some (Except.error _) =>
      queryAnalysisText query execTime resultsSummary "despite AI limitations"
        "AI-powered insights generation is currently unavailable due to API limitations. The core data analysis functionality remains fully operational."

/-! Helper lemmas shared by the claim theorems. -/

/-- Concrete raw row used by several concrete instances: a valid record
(age 20, quantity 1, price 100) that survives cleaning into the
`"18-25"` age bucket. -/
def rawA : RawRow :=
  { invoice_no := "I1", customer_id := "C1", gender := "Female", age := 20,
    category := "Clothing", quantity := 1, price := 100, payment_method := "Cash",
    invoice_date := some 0, shopping_mall := "Kanyon" }

/-- Cleaned form of `rawA`. -/
def cleanA : CleanRow :=
  { row := rawA, total_amount := 100, age_group := "18-25",
    spending_category := "Low (<$100)" }

/-- Concrete raw row whose customer total is exactly 1000, the first
segment bin edge. -/
def rawB : RawRow :=
  { invoice_no := "I2", customer_id := "C2", gender := "Male", age := 30,
    category := "Shoes", quantity := 1, price := 1000, payment_method := "Cash",
    invoice_date := some 0, shopping_mall := "Kanyon" }

theorem sum_map_add {α : Type} (l : List α) (f g : α → ℚ) :
    (l.map (fun x => f x + g x)).sum = (l.map f).sum + (l.map g).sum := by
  induction l with
  | nil => simp
  | cons a t ih => simp [ih]; ring

theorem sum_map_ite_eq (k : String) (v : ℚ) (keys : List String)
    (hnd : keys.Nodup) (hk : k ∈ keys) :
    (keys.map (fun x => if k = x then v else 0)).sum = v := by
  induction keys with
  | nil => cases hk
  | cons a t ih =>
    rcases List.nodup_cons.mp hnd with ⟨ha, hndt⟩
    by_cases hka : k = a
    · subst hka
      have hz : ∀ x ∈ t, (if k = x then v else (0 : ℚ)) = 0 := by
        intro x hx
        have hne : k ≠ x := fun h => ha (h ▸ hx)
        simp [hne]
      simp [List.map_congr_left hz]
    · have hkt : k ∈ t := by
        rcases List.mem_cons.mp hk with h | h
        · exact absurd h hka
        · exact h
      simp [hka, ih hndt hkt]

theorem sum_fiber (key : CleanRow → String) (val : CleanRow → ℚ) :
    ∀ (t : List CleanRow) (keys : List String), keys.Nodup →
      (∀ c ∈ t, key c ∈ keys) →
      (keys.map (fun k => ((t.filter (fun c => key c == k)).map val).sum)).sum
        = (t.map val).sum := by
  intro t
  induction t with
  | nil => intro keys _ _; simp
  | cons r t ih =>
    intro keys hnd hcov
    have hr : key r ∈ keys := hcov r (List.mem_cons_self r t)
    have hcovt : ∀ c ∈ t, key c ∈ keys := fun c hc => hcov c (List.mem_cons_of_mem r hc)
    have hstep : ∀ k ∈ keys,
        (((r :: t).filter (fun c => key c == k)).map val).sum
          = (if key r = k then val r else 0)
            + ((t.filter (fun c => key c == k)).map val).sum := by
      intro k _
      by_cases h : key r = k
      · simp [List.filter_cons, h]
      · simp [List.filter_cons, h]
    rw [List.map_congr_left hstep, sum_map_add,
      sum_map_ite_eq (key r) (val r) keys hnd hr, ih keys hnd hcovt]
    simp

/-- Conservation of the grand total under any single-string-key
group-by/sum: the per-group sums add up to the sum over the whole table. -/
theorem aggregateSumBy_conserves (key : CleanRow → String) (val : CleanRow → ℚ)
    (t : List CleanRow) :
    ((aggregateSumBy key val t).map Prod.snd).sum = (t.map val).sum := by
  unfold aggregateSumBy
  rw [List.map_map]
  exact sum_fiber key val t _ (List.nodup_dedup _)
    (fun c hc => List.mem_dedup.mpr (List.mem_map_of_mem key hc))

/-- Rows of the cleaned table come from raw rows by `cleanRow`. -/
theorem mem_clean_data (t : List RawRow) (c : CleanRow) (hc : c ∈ clean_data t) :
    ∃ r ∈ t, cleanRow r = some c := List.mem_filterMap.mp hc

/-- Field characterization of a raw row that survives cleaning. -/
theorem cleanRow_eq_some (r : RawRow) (c : CleanRow) (h : cleanRow r = some c) :
    c.row = r ∧ c.total_amount = (r.quantity : ℚ) * r.price ∧
    ageBucket r.age = some c.age_group ∧
    spendBucket ((r.quantity : ℚ) * r.price) = some c.spending_category := by
  rcases hd : r.invoice_date with _ | d <;>
    rcases ha : ageBucket r.age with _ | ag <;>
      rcases hs : spendBucket ((r.quantity : ℚ) * r.price) with _ | sc <;>
        simp [cleanRow, hd, ha, hs] at h
  subst h
  exact ⟨rfl, rfl, rfl, rfl⟩

theorem ageBucket_some_bounds (a : Int) (s : String) (h : ageBucket a = some s) :
    0 < a ∧ a ≤ 100 := by
  unfold ageBucket at h
  split_ifs at h with h1 h2 h3 h4 h5
  · omega
  · omega
  · omega
  · omega
  · omega

theorem spendBucket_some_pos (t : ℚ) (s : String) (h : spendBucket t = some s) :
    0 < t := by
  unfold spendBucket at h
  split_ifs at h with h1 h2 h3 h4 h5
  · exact h1.1
  · linarith [h2.1]
  · linarith [h3.1]
  · linarith [h4.1]
  · linarith

theorem spendBucket_none_of_nonpos (t : ℚ) (ht : t ≤ 0) : spendBucket t = none := by
  unfold spendBucket
  split_ifs with h1 h2 h3 h4 h5
  · linarith [h1.1]
  · linarith [h2.1]
  · linarith [h3.1]
  · linarith [h4.1]
  · linarith
  · rfl

theorem ageBucket_none_of_out (a : Int) (ha : a ≤ 0 ∨ 100 < a) : ageBucket a = none := by
  unfold ageBucket
  split_ifs with h1 h2 h3 h4 h5
  · omega
  · omega
  · omega
  · omega
  · omega
  · rfl

/-- Any raw row with a non-positive total or an age outside (0, 100] is
dropped by `clean_data` (its derived bucket is null and `dropna` removes
the row). -/
theorem cleanRow_none_of_bad (r : RawRow)
    (hbad : (r.quantity : ℚ) * r.price ≤ 0 ∨ r.age ≤ 0 ∨ 100 < r.age) :
    cleanRow r = none := by
  rcases hbad with hb | hb
  · have hs : spendBucket ((r.quantity : ℚ) * r.price) = none :=
      spendBucket_none_of_nonpos _ hb
    rcases hd : r.invoice_date with _ | d <;>
      rcases ha : ageBucket r.age with _ | ag <;>
        simp [cleanRow, hd, ha, hs]
  · have ha : ageBucket r.age = none := ageBucket_none_of_out _ hb
    rcases hd : r.invoice_date with _ | d <;>
      rcases hs : spendBucket ((r.quantity : ℚ) * r.price) with _ | sc <;>
        simp [cleanRow, hd, ha, hs]

/-! Claim theorems. -/

/-- C1 counterexample: on a one-row table whose only row falls in the
"18-25" age bucket, `get_age_group_analysis` still produces one output row
per age-bucket label — five rows, including a synthesized row for the
absent bucket "26-35" — refuting the claim that grouping by age_bucket
yields rows only for age buckets that actually occur in the table. -/
theorem c1_counterexample :
    (get_age_group_analysis (clean_data [rawA])).map Prod.fst
      = ["18-25", "26-35", "36-45", "46-55", "55+"] ∧
    (clean_data [rawA]).map CleanRow.age_group = ["18-25"] ∧
    "26-35" ∈ (get_age_group_analysis (clean_data [rawA])).map Prod.fst ∧
    "26-35" ∉ (clean_data [rawA]).map CleanRow.age_group := by
  have h1 : (get_age_group_analysis (clean_data [rawA])).map Prod.fst
      = ["18-25", "26-35", "36-45", "46-55", "55+"] := by
    simp [get_age_group_analysis, ageGroupLabels]
  have h2 : (clean_data [rawA]).map CleanRow.age_group = ["18-25"] := by
    simp +decide [clean_data, cleanRow, rawA, ageBucket, spendBucket]
  exact ⟨h1, h2, by rw [h1]; decide, by rw [h2]; decide⟩

/-- C1 (amended): for a string-typed group key, `aggregateSumBy` emits
exactly one row per distinct key value present in the input (no
synthesized rows); but `get_age_group_analysis`, which groups by the
Categorical `age_group` column with pandas' default `observed=False`,
emits one row for each of the five age-bucket labels regardless of
whether the bucket occurs in the table. -/
theorem c1_group_rows :
    (∀ (key : CleanRow → String) (val : CleanRow → ℚ) (t : List CleanRow),
        (aggregateSumBy key val t).map Prod.fst = (t.map key).dedup ∧
        ((aggregateSumBy key val t).map Prod.fst).Nodup ∧
        ∀ k : String, k ∈ (aggregateSumBy key val t).map Prod.fst ↔ k ∈ t.map key) ∧
    ∀ t : List CleanRow, (get_age_group_analysis t).map Prod.fst = ageGroupLabels := by
  constructor
  · intro key val t
    have hfst : (aggregateSumBy key val t).map Prod.fst = (t.map key).dedup := by
      simp [aggregateSumBy, Function.comp_def]
    refine ⟨hfst, ?_, ?_⟩
    · rw [hfst]; exact List.nodup_dedup _
    · intro k; rw [hfst]; exact List.mem_dedup
  · intro t
    simp [get_age_group_analysis, Function.comp_def]

/-- C2 counterexample: a customer whose summed total_amount is exactly
1000 (the first bin edge) is labelled "Budget", the LOWER bucket, because
`pd.cut` defaults to right-closed bins (0,1000], (1000,5000], ...; and a
total of exactly 0 falls in no bin at all (null segment), so the first bin
does not include 0.  This refutes both tie-breaking parts of the claim. -/
theorem c2_counterexample :
    (get_customer_segments (clean_data [rawB])).map SegmentRow.total_amount = [(1000 : ℚ)] ∧
    (get_customer_segments (clean_data [rawB])).map SegmentRow.segment = [some "Budget"] ∧
    segBucket 1000 ≠ some "Regular" ∧
    segBucket 0 = none := by
  refine ⟨?_, ?_, by decide, by decide⟩ <;>
    simp +decide [get_customer_segments, clean_data, cleanRow, rawB, ageBucket,
      spendBucket, segBucket]

/-- C2 (amended): `get_customer_segments` groups the cleaned table by
customer id, sums total_amount, and buckets each customer by the fixed
thresholds 0, 1000, 5000, 10000, infinity into Budget, Regular, Premium,
VIP with LEFT-OPEN/RIGHT-CLOSED bins: a sum exactly on a bin edge (e.g.
exactly 1000) is placed in the lower bucket, and a sum of exactly 0 (or
less) gets a null segment, not "Budget". -/
theorem c2_segment_binning (t : List CleanRow) (s : SegmentRow)
    (hs : s ∈ get_customer_segments t) :
    s.segment = segBucket s.total_amount ∧
    s.total_amount
      = ((t.filter (fun c => c.row.customer_id == s.customer_id)).map CleanRow.total_amount).sum ∧
    (∀ q : ℚ, 0 < q → q ≤ 1000 → segBucket q = some "Budget") ∧
    (∀ q : ℚ, 1000 < q → q ≤ 5000 → segBucket q = some "Regular") ∧
    (∀ q : ℚ, 5000 < q → q ≤ 10000 → segBucket q = some "Premium") ∧
    (∀ q : ℚ, 10000 < q → segBucket q = some "VIP") ∧
    (∀ q : ℚ, q ≤ 0 → segBucket q = none) := by
  obtain ⟨cid, hcid, rfl⟩ := List.mem_map.mp hs
  refine ⟨rfl, rfl, ?_, ?_, ?_, ?_, ?_⟩
  · intro q h1 h2
    simp only [segBucket]
    rw [if_pos ⟨h1, h2⟩]
  · intro q h1 h2
    have n1 : ¬(0 < q ∧ q ≤ 1000) := fun h => by linarith [h.2]
    simp only [segBucket]
    rw [if_neg n1, if_pos ⟨h1, h2⟩]
  · intro q h1 h2
    have n1 : ¬(0 < q ∧ q ≤ 1000) := fun h => by linarith [h.2]
    have n2 : ¬(1000 < q ∧ q ≤ 5000) := fun h => by linarith [h.2]
    simp only [segBucket]
    rw [if_neg n1, if_neg n2, if_pos ⟨h1, h2⟩]
  · intro q h1
    have n1 : ¬(0 < q ∧ q ≤ 1000) := fun h => by linarith [h.2]
    have n2 : ¬(1000 < q ∧ q ≤ 5000) := fun h => by linarith [h.2]
    have n3 : ¬(5000 < q ∧ q ≤ 10000) := fun h => by linarith [h.2]
    simp only [segBucket]
    rw [if_neg n1, if_neg n2, if_neg n3, if_pos h1]
  · intro q h1
    have n1 : ¬(0 < q ∧ q ≤ 1000) := fun h => by linarith [h.1]
    have n2 : ¬(1000 < q ∧ q ≤ 5000) := fun h => by linarith [h.1]
    have n3 : ¬(5000 < q ∧ q ≤ 10000) := fun h => by linarith [h.1]
    have n4 : ¬(10000 < q) := by linarith
    simp only [segBucket]
    rw [if_neg n1, if_neg n2, if_neg n3, if_neg n4]

/-- C2 witness: the amended theorem applied to the concrete one-customer
table built from `rawB` (summed total exactly 1000 → segment "Budget"). -/
theorem c2_segment_binning_witness :
    (SegmentRow.mk "C2" 1000 1 1 1 (some "Budget")).segment
      = segBucket (SegmentRow.mk "C2" 1000 1 1 1 (some "Budget")).total_amount ∧
    segBucket 1000 = some "Budget" := by
  have hm : SegmentRow.mk "C2" 1000 1 1 1 (some "Budget")
      ∈ get_customer_segments (clean_data [rawB]) := by
    simp +decide [get_customer_segments, clean_data, cleanRow, rawB, ageBucket,
      spendBucket, segBucket]
  have h := c2_segment_binning (clean_data [rawB]) _ hm
  exact ⟨h.1, h.2.2.1 1000 (by decide) (by decide)⟩

/-- C3: `age_group` of every row surviving `clean_data` equals the pure
function `ageBucket` of its age, over the fixed bin edges
[0, 25, 35, 45, 55, 100]; in particular age 25 maps to "18-25", 26 to
"26-35", 55 to "46-55" and 56 to "55+". -/
theorem c3_age_bucket_pure (t : List RawRow) (c : CleanRow) (hc : c ∈ clean_data t) :
    some c.age_group = ageBucket c.row.age ∧
    ageBucket 25 = some "18-25" ∧ ageBucket 26 = some "26-35" ∧
    ageBucket 55 = some "46-55" ∧ ageBucket 56 = some "55+" := by
  obtain ⟨r, hr, h⟩ := mem_clean_data t c hc
  obtain ⟨hrow, _, hag, _⟩ := cleanRow_eq_some r c h
  exact ⟨by rw [hrow, hag], by decide, by decide, by decide, by decide⟩

/-- C3 witness: the theorem applied to the concrete cleaned row of `rawA`. -/
theorem c3_age_bucket_pure_witness :
    some cleanA.age_group = ageBucket cleanA.row.age ∧ ageBucket 25 = some "18-25" := by
  have hm : cleanA ∈ clean_data [rawA] := by
    simp +decide [clean_data, cleanRow, rawA, cleanA, ageBucket, spendBucket]
  have h := c3_age_bucket_pure [rawA] cleanA hm
  exact ⟨h.1, h.2.1⟩

/-- Every keyword any rule family or the chart pass tests for.  A query
containing none of these substrings falls through every branch of both
translators and of both chart-selection passes. -/
def translatorKeywords : List String :=
  ["revenue", "sales", "category", "mall", "shopping", "gender", "age", "payment",
   "customer", "trend", "time", "quantity", "summary", "overview", "distribution", "pie"]

/-- Default rule of both translators: group by category, sum total_amount. -/
def defaultAgg : PandasProgram := sumBy ["category"] "total_amount"

/-- C4: both translators are total functions (the embedding is a plain
function, mirroring the source's if/elif chains that always reach the
final else), and every query matching no keyword rule receives the
default rule — group by category, sum of total_amount — with chart type
bar from both chart-selection passes. -/
theorem c4_default_rule (q : String)
    (h : ∀ kw ∈ translatorKeywords, hasTok q kw = false) :
    genPandasCode q = defaultAgg ∧
    translate_query_to_pandas q = defaultAgg ∧
    (generate_visualization q (some 2)).chart = ChartType.bar ∧
    pipelineChartType q = ChartType.bar := by
  have h1 := h "revenue" (by decide)
  have h2 := h "sales" (by decide)
  have h3 := h "category" (by decide)
  have h4 := h "mall" (by decide)
  have h5 := h "shopping" (by decide)
  have h6 := h "gender" (by decide)
  have h7 := h "age" (by decide)
  have h8 := h "payment" (by decide)
  have h9 := h "customer" (by decide)
  have h10 := h "trend" (by decide)
  have h11 := h "time" (by decide)
  have h12 := h "quantity" (by decide)
  have h13 := h "summary" (by decide)
  have h14 := h "overview" (by decide)
  have h15 := h "distribution" (by decide)
  have h16 := h "pie" (by decide)
  refine ⟨?_, ?_, ?_, ?_⟩ <;>
    simp [genPandasCode, translate_query_to_pandas, generate_visualization,
      pipelineChartType, defaultAgg, h1, h2, h3, h4, h5, h6, h7, h8, h9, h10,
      h11, h12, h13, h14, h15, h16]

/-- C4 witness: the spec's own example query "gibberish query xyz" matches
no keyword, so both translators return the default rule and both chart
passes return bar. -/
theorem c4_default_rule_witness :
    genPandasCode "gibberish query xyz" = defaultAgg ∧
    translate_query_to_pandas "gibberish query xyz" = defaultAgg ∧
    (generate_visualization "gibberish query xyz" (some 2)).chart = ChartType.bar ∧
    pipelineChartType "gibberish query xyz" = ChartType.bar :=
  c4_default_rule "gibberish query xyz" (by decide)

/-- C5 counterexample: the streamlit translator
(`translate_query_to_pandas`), cited by the claim, sends the query
"total revenue" — which contains "revenue" and none of the secondary
tokens — to `groupby('category')`, not `groupby('invoice_date')`: its
revenue family falls back to invoice_date only when "trend" is present. -/
theorem c5_counterexample :
    translate_query_to_pandas "total revenue" = sumBy ["category"] "total_amount" ∧
    translate_query_to_pandas "total revenue" ≠ sumBy ["invoice_date"] "total_amount" := by
  constructor
  · decide
  · decide

/-- C5 (amended): for a query containing "revenue" or "sales" and none of
"category", "mall", "shopping", "gender", "age": the agent translator
(`_generate_pandas_code`) groups by invoice_date with sum of
total_amount, as claimed; the streamlit translator
(`translate_query_to_pandas`) does so only when the query also contains
"trend", and otherwise groups by category. -/
theorem c5_revenue_default_group (q : String)
    (hrs : hasTok q "revenue" = true ∨ hasTok q "sales" = true)
    (h1 : hasTok q "category" = false) (h2 : hasTok q "mall" = false)
    (h3 : hasTok q "shopping" = false) (h4 : hasTok q "gender" = false)
    (h5 : hasTok q "age" = false) :
    genPandasCode q = sumBy ["invoice_date"] "total_amount" ∧
    (hasTok q "trend" = true →
      translate_query_to_pandas q = sumBy ["invoice_date"] "total_amount") ∧
    (hasTok q "trend" = false →
      translate_query_to_pandas q = sumBy ["category"] "total_amount") := by
  rcases hrs with h | h <;>
    exact ⟨by simp [genPandasCode, h, h1, h2, h3, h4, h5],
      fun ht => by simp [translate_query_to_pandas, h, h1, h2, h3, h4, h5, ht],
      fun ht => by simp [translate_query_to_pandas, h, h1, h2, h3, h4, h5, ht]⟩

/-- C5 witness: the amended theorem at the concrete queries
"show me revenue" (no "trend": the two translators disagree) — both
hypothesis sets discharged by evaluation. -/
theorem c5_revenue_default_group_witness :
    genPandasCode "show me revenue" = sumBy ["invoice_date"] "total_amount" ∧
    translate_query_to_pandas "show me revenue" = sumBy ["category"] "total_amount" := by
  have h := c5_revenue_default_group "show me revenue" (Or.inl (by decide))
    (by decide) (by decide) (by decide) (by decide) (by decide)
  exact ⟨h.1, h.2.2 (by decide)⟩

/-- C6 counterexample: the query "category distribution" contains
"distribution" yet yields a BAR chart in both chart-selection passes,
because the "category" branch is tested before the "pie"/"distribution"
branch — refuting "every query containing pie or distribution yields a
pie chart". -/
theorem c6_counterexample :
    (generate_visualization "category distribution" (some 2)).chart = ChartType.bar ∧
    pipelineChartType "category distribution" = ChartType.bar ∧
    ChartType.bar ≠ ChartType.pie := by
  refine ⟨by decide, by decide, by decide⟩

/-- C6 (amended): chart-type selection is an independent pass over the
query string, with precedence: when the result is a table, "trend" always
yields line; "pie"/"distribution" yields pie only when none of "trend",
"category", "mall", "shopping", "gender", "age" occurs (those earlier
branches win and give bar/line); a query with none of trend/pie/
distribution yields bar; and when the result table has fewer than two
columns the figure is skipped (no figure, no error — the embedding is a
total function). -/
theorem c6_chart_selection (q : String) (n : Nat) :
    (hasTok q "trend" = true →
      (generate_visualization q (some n)).chart = ChartType.line ∧
      pipelineChartType q = ChartType.line) ∧
    ((hasTok q "pie" = true ∨ hasTok q "distribution" = true) →
      hasTok q "trend" = false → hasTok q "category" = false →
      hasTok q "mall" = false → hasTok q "shopping" = false →
      hasTok q "gender" = false → hasTok q "age" = false →
      (generate_visualization q (some n)).chart = ChartType.pie ∧
      pipelineChartType q = ChartType.pie) ∧
    (hasTok q "trend" = false → hasTok q "pie" = false →
      hasTok q "distribution" = false →
      (generate_visualization q (some n)).chart = ChartType.bar ∧
      pipelineChartType q = ChartType.bar) ∧
    (n < 2 → (generate_visualization q (some n)).hasFig = false) ∧
    (2 ≤ n → (generate_visualization q (some n)).hasFig = true) := by
  refine ⟨fun ht => ?_, fun hpd h1 h2 h3 h4 h5 h6 => ?_, fun h1 h2 h3 => ?_,
    fun hn => ?_, fun hn => ?_⟩
  · constructor <;> simp [generate_visualization, pipelineChartType, ht]
  · rcases hpd with hp | hp <;>
      constructor <;>
        simp [generate_visualization, pipelineChartType, hp, h1, h2, h3, h4, h5, h6]
  · constructor <;> simp [generate_visualization, pipelineChartType, h1, h2, h3]
  · simp [generate_visualization]
    omega
  · simp [generate_visualization]
    omega

/-- C6 witness: the amended theorem evaluated at concrete queries —
"trend" gives line, "pie" alone gives pie, "hello" gives bar, and a
one-column result produces no figure. -/
theorem c6_chart_selection_witness :
    (generate_visualization "trend" (some 2)).chart = ChartType.line ∧
    (generate_visualization "pie" (some 2)).chart = ChartType.pie ∧
    (generate_visualization "hello" (some 2)).chart = ChartType.bar ∧
    (generate_visualization "hello" (some 1)).hasFig = false := by
  refine ⟨((c6_chart_selection "trend" 2).1 (by decide)).1,
    ((c6_chart_selection "pie" 2).2.1 (Or.inl (by decide)) (by decide) (by decide)
      (by decide) (by decide) (by decide) (by decide)).1,
    ((c6_chart_selection "hello" 2).2.2.1 (by decide) (by decide) (by decide)).1,
    (c6_chart_selection "hello" 1).2.2.2.1 (by decide)⟩

/-- C7 counterexample: on a missing file (`pd.read_csv` raises
FileNotFoundError) `load_data` returns the normal value `None` — the
exception is caught inside `load_data` and is NOT surfaced to the caller. -/
theorem c7_counterexample :
    load_data (Except.error "FileNotFoundError") = Except.ok none ∧
    load_data (Except.error "FileNotFoundError") ≠ Except.error "FileNotFoundError" := by
  refine ⟨rfl, fun h => ?_⟩
  rw [show load_data (Except.error "FileNotFoundError")
      = Except.ok none from rfl] at h
  exact Except.noConfusion h

/-- C7 (amended): `load_data` returns the loaded table when the read
succeeds, and returns `None` (after printing an error message) when the
file is missing or any other read error occurs; it never propagates an
exception to the caller. -/
theorem c7_load_behavior (read : Except String (List RawRow)) :
    (∀ t, read = Except.ok t → load_data read = Except.ok (some t)) ∧
    (∀ e, read = Except.error e → load_data read = Except.ok none) ∧
    (∀ e, load_data read ≠ Except.error e) := by
  rcases read with e | t
  · exact ⟨fun t h => Except.noConfusion h, fun e' h => rfl,
      fun e' h => Except.noConfusion h⟩
  · exact ⟨fun t' h => by cases h; rfl, fun e' h => Except.noConfusion h,
      fun e' h => Except.noConfusion h⟩

/-- C7 witness: the amended theorem at a present file (empty table) and at
a missing file. -/
theorem c7_load_behavior_witness :
    load_data (Except.ok ([] : List RawRow)) = Except.ok (some []) ∧
    load_data (Except.error "FileNotFoundError") = Except.ok none :=
  ⟨(c7_load_behavior (Except.ok [])).1 [] rfl,
   (c7_load_behavior (Except.error "FileNotFoundError")).2.1 "FileNotFoundError" rfl⟩

/-- C8 counterexample: on an external failure, `generate_dataset_summary`
does not return the text of a deterministic local template — its output
embeds the error message itself, so two different failures of the same
call produce two different texts.  (There is no local template for the
dataset_summary kind; the claim holds only for query_analysis.) -/
theorem c8_counterexample :
    generate_dataset_summary (some (Except.error "timeout"))
      = "Error generating summary: timeout" ∧
    generate_dataset_summary (some (Except.error "quota"))
      = "Error generating summary: quota" ∧
    generate_dataset_summary (some (Except.error "timeout"))
      ≠ generate_dataset_summary (some (Except.error "quota")) := by
  refine ⟨rfl, rfl, by decide⟩

/-- C8 (amended): no narrative kind propagates an external failure as an
exception (each embedding returns a plain string for every provider
outcome), but only `generate_query_analysis` falls back to the
deterministic local template — both when no provider is configured and
when the call fails, with an output independent of the error.  The other
four kinds (dataset_summary, visualization_insight, trend_analysis,
comparative_analysis) instead return an "Error generating ..." message
that embeds the failure text. -/
theorem c8_narrative_fallback :
    (∀ (e q et rs : String),
        generate_query_analysis (some (Except.error e)) q et rs
          = queryAnalysisText q et rs "despite AI limitations"
              "AI-powered insights generation is currently unavailable due to API limitations. The core data analysis functionality remains fully operational.") ∧
    (∀ q et rs : String,
        generate_query_analysis none q et rs
          = queryAnalysisText q et rs "using local processing"
              "Using local analysis mode. The core data analysis functionality is fully operational.") ∧
    (∀ e q et rs e' : String,
        generate_query_analysis (some (Except.error e)) q et rs
          = generate_query_analysis (some (Except.error e')) q et rs) ∧
    (∀ e : String,
        generate_dataset_summary (some (Except.error e))
          = "Error generating summary: " ++ e) ∧
    (∀ e : String,
        generate_visualization_insights (some (Except.error e))
          = "Error generating insights: " ++ e) ∧
    (∀ e : String,
        generate_trend_analysis (some (Except.error e))
          = "Error generating trend analysis: " ++ e) ∧
    (∀ e : String,
        generate_comparative_analysis (some (Except.error e))
          = "Error generating comparative analysis: " ++ e) ∧
    generate_dataset_summary none = "Error generating summary: " ++ noneAttrErr :=
  ⟨fun _ _ _ _ => rfl, fun _ _ _ => rfl, fun _ _ _ _ _ => rfl,
   fun _ => rfl, fun _ => rfl, fun _ => rfl, fun _ => rfl, rfl⟩

/-- C9: grouping the cleaned table by any single string key (in
particular `category`) and summing `total_amount` per group conserves the
grand total: the per-group sums add up to the sum of `total_amount` over
the whole table. -/
theorem c9_sum_conservation :
    ∀ t : List CleanRow,
      (∀ (key : CleanRow → String),
        ((aggregateSumBy key CleanRow.total_amount t).map Prod.snd).sum
          = (t.map CleanRow.total_amount).sum) ∧
      ((aggregateSumBy (fun c => c.row.category) CleanRow.total_amount t).map Prod.snd).sum
        = (t.map CleanRow.total_amount).sum :=
  fun t => ⟨fun key => aggregateSumBy_conserves key CleanRow.total_amount t,
    aggregateSumBy_conserves _ CleanRow.total_amount t⟩

/-- C10: every row surviving `clean_data` has a strictly positive
total_amount (= quantity × price) and an age in (0, 100]; conversely any
raw row violating either bound is assigned a null bucket by the
fixed-edge binning and removed by the null-row drop. -/
theorem c10_clean_bounds (t : List RawRow) (c : CleanRow) (hc : c ∈ clean_data t) :
    0 < c.total_amount ∧ 0 < c.row.age ∧ c.row.age ≤ 100 ∧
    c.total_amount = (c.row.quantity : ℚ) * c.row.price ∧
    ∀ r : RawRow,
      ((r.quantity : ℚ) * r.price ≤ 0 ∨ r.age ≤ 0 ∨ 100 < r.age) →
        cleanRow r = none := by
  obtain ⟨r, hr, h⟩ := mem_clean_data t c hc
  obtain ⟨hrow, htot, hag, hsp⟩ := cleanRow_eq_some r c h
  refine ⟨?_, ?_, ?_, ?_, fun r' hbad => cleanRow_none_of_bad r' hbad⟩
  · rw [htot]; exact spendBucket_some_pos _ _ hsp
  · rw [hrow]; exact (ageBucket_some_bounds _ _ hag).1
  · rw [hrow]; exact (ageBucket_some_bounds _ _ hag).2
  · rw [htot, hrow]

/-- C10 witness: the theorem applied to the concrete table `[rawA]` and its
cleaned row, plus the removal clause at a concrete out-of-range row
(age 150). -/
theorem c10_clean_bounds_witness :
    0 < cleanA.total_amount ∧
    cleanRow { rawA with age := 150 } = none := by
  have hm : cleanA ∈ clean_data [rawA] := by
    simp +decide [clean_data, cleanRow, rawA, cleanA, ageBucket, spendBucket]
  have h := c10_clean_bounds [rawA] cleanA hm
  exact ⟨h.1, h.2.2.2.2 _ (Or.inr (Or.inr (by decide)))⟩

end CustomerShopping
